import Mathlib

/-!
Verification of the EMACS wireless sensor network firmware (TX sensor node
and RX Master node). The development shallowly embeds the shared wire
record, the alarm triage engines of both roles, the TX command negotiator
and the radio setup routines, and proves the spec claims about them.

Machine `int` values (AVR 16-bit) are modelled as `Int`; the triage and
command logic only compares values, so no overflow arises there. Enum
values are modelled by their numeric encodings, exactly as the C code
compares them.
-/

namespace Emacs

/-- The pingCmd struct shared by both roles: the control/ack sub-record.
Enum fields (my_cmd, pa_cmd, alm_cmd, dng_cmd) carry their numeric
encodings. -/
structure pingCmd where
  my_cmd  : Int
  ch_cmd  : Int
  r_cmd   : Int
  pa_cmd  : Int
  tar_cmd : Int
  alm_cmd : Int
  dng_cmd : Int
deriving DecidableEq, Repr

/-- The dataStruct shared by both roles: one sensor reading plus the
embedded pingCmd. Field order matches the C declaration. -/
structure dataStruct where
  chNum      : Int
  radNum     : Int
  co2_val    : Int
  h_val      : Int
  c_val      : Int
  f_val      : Int
  pir_state  : Int
  audio_gate : Int
  ping       : pingCmd
deriving DecidableEq, Repr

/-! Alarm_type numeric encodings: ALM_NONE = 0, HUM_LOW = 1, HUM_HIGH = 2,
TEMP_LOW = 3, CO2_LOW = 4, TEMP_HIGH = 5, CO2_HIGH = 6, CO2_GOOD = 7,
LOUDNOISE = 8, INTRUDER = 9, CO2_DNG = 10, TEMP_FIRE = 11.
Dng_level: DNG_NONE = 0, DNG_LOW = 1, DNG_MED = 2, DNG_HIGH = 3, DNG_MAX = 4. -/

/-- One triage threshold block: the if-condition, the Alarm_type candidate
assigned to the alarm variable, and the Dng_level candidate assigned to
the danger variable inside that block. -/
abbrev TriageCand := Bool × Int × Int

/-- One step of the triage accumulation. Each firing block runs
`if (alm >= alm_temp) alm_temp = alm;` and
`if (dng >= dng_temp) dng_temp = dng;` on the running pair;
a non-firing block leaves the pair untouched. -/
def triageStep (acc : Int × Int) (c : TriageCand) : Int × Int :=
  if c.1 then
    ((if c.2.1 ≥ acc.1 then c.2.1 else acc.1),
     (if c.2.2 ≥ acc.2 then c.2.2 else acc.2))
  else acc

/-- The ordered threshold blocks of the TX triage_data routine
(part_000 lines 521-634), in source order: humidity low, humidity high,
temperature low/high/fire, CO2 low/good/high/danger, audio gate, PIR. -/
def candListTX (m : dataStruct) : List TriageCand :=
  [ (decide (m.h_val < 10), 1, 0),
    (decide (m.h_val ≥ 85), 2, 1),
    (decide (m.c_val < 20), 3, 1),
    (decide (m.c_val ≥ 40 ∧ m.c_val < 100), 5, 3),
    (decide (m.c_val ≥ 100), 11, 4),
    (decide (m.co2_val ≤ 0), 4, 0),
    (decide (m.co2_val ≥ 400 ∧ m.co2_val ≤ 1600), 7, 0),
    (decide (m.co2_val ≥ 1800 ∧ m.co2_val < 3000), 6, 3),
    (decide (m.co2_val ≥ 3000), 10, 4),
    (decide (m.audio_gate = 1), 8, 2),
    (decide (m.pir_state = 1), 9, 3) ]

/-- The ordered threshold blocks of the Master triage_msg routine
(emacs_RX_Master_03.ino lines 518-649), in source order. Note the strict
temperature comparisons (c_val > 40, c_val > 100), the wider CO2 good
band (400..1999), the shifted CO2 high band (2000..2999), and that the
PIR block is evaluated before the audio block. -/
def candListMaster (m : dataStruct) : List TriageCand :=
  [ (decide (m.h_val < 10), 1, 0),
    (decide (m.h_val ≥ 85), 2, 1),
    (decide (m.c_val < 20), 3, 1),
    (decide (m.c_val > 40), 5, 3),
    (decide (m.c_val > 100), 11, 4),
    (decide (m.co2_val ≤ 0), 4, 0),
    (decide (m.co2_val ≥ 400 ∧ m.co2_val < 2000), 7, 0),
    (decide (m.co2_val ≥ 2000 ∧ m.co2_val < 3000), 6, 3),
    (decide (m.co2_val ≥ 3000), 10, 4),
    (decide (m.pir_state = 1), 9, 3),
    (decide (m.audio_gate = 1), 8, 2) ]

/-- TX triage_data: fold the threshold blocks over the (alm_temp, dng_temp)
pair initialised to (0, 0); the result is written back into the ping
sub-record and the alarm globals by the caller. -/
def triage_data (m : dataStruct) : Int × Int :=
  (candListTX m).foldl triageStep (0, 0)

/-- Master triage_msg: same accumulation over the Master threshold blocks. -/
def triage_msg (m : dataStruct) : Int × Int :=
  (candListMaster m).foldl triageStep (0, 0)

/-- The (alarm, danger) candidate pairs of the blocks whose condition
fires, in evaluation order. -/
def fired (l : List TriageCand) : List (Int × Int) :=
  (l.filter (fun c => c.1)).map (fun c => c.2)

/-- Candidates fired by the TX classifier on a record. -/
def firedTX (m : dataStruct) : List (Int × Int) := fired (candListTX m)

/-- Candidates fired by the Master classifier on a record. -/
def firedMaster (m : dataStruct) : List (Int × Int) := fired (candListMaster m)

/-- Maximum of the alarm components of a fired-candidate list, folded from
a starting value. -/
def maxAlm (l : List (Int × Int)) (a : Int) : Int :=
  l.foldl (fun x c => max x c.1) a

/-- Maximum of the danger components of a fired-candidate list, folded from
a starting value. -/
def maxDng (l : List (Int × Int)) (d : Int) : Int :=
  l.foldl (fun x c => max x c.2) d

lemma if_ge_eq_max (x a : Int) : (if a ≥ x then a else x) = max x a := by
  rcases le_or_lt x a with h | h
  · rw [if_pos h, max_eq_right h]
  · rw [if_neg (not_le.mpr h), max_eq_left h.le]

lemma foldl_triageStep (l : List TriageCand) :
    ∀ acc : Int × Int,
      l.foldl triageStep acc = (maxAlm (fired l) acc.1, maxDng (fired l) acc.2) := by
  induction l with
  | nil => intro acc; simp [fired, maxAlm, maxDng]
  | cons c l ih =>
      intro acc
      obtain ⟨b, a, d⟩ := c
      cases b with
      | false =>
          simp only [List.foldl_cons, triageStep, Bool.false_eq_true, if_false, ih]
          simp [fired, List.filter_cons]
      | true =>
          simp only [List.foldl_cons, triageStep, if_true, ih]
          simp [fired, List.filter_cons, maxAlm, maxDng, if_ge_eq_max]

/-! ## TX node state and command negotiation -/

/-- The radio hardware parameters currently programmed into the nRF24:
the write pipe index passed to openWritingPipe, the channel, and the
power amplifier level. -/
structure RadioState where
  writePipe : Int
  channel   : Int
  power     : Int
deriving DecidableEq, Repr

/-- The TX node process state: the security globals (myNum..dngNum), the
node identity globals (radNum, chNum, pwrNum), the environmental globals,
the SentMessage record, and the programmed radio parameters. -/
structure TXState where
  myNum   : Int
  tarNum  : Int
  almNum  : Int
  dngNum  : Int
  radNum  : Int
  chNum   : Int
  pwrNum  : Int
  co2Num  : Int
  hNum    : Int
  tNum    : Int
  fNum    : Int
  pirNum  : Int
  gateNum : Int
  sent    : dataStruct
deriving DecidableEq, Repr

/-- The TX node state together with the radio parameters. -/
structure TXNode where
  st    : TXState
  radio : RadioState
deriving DecidableEq, Repr

/-- Radio events emitted by the link session controller, in order:
a full radio re-initialisation with (write pipe, channel, power), or a
transmission performed with the radio parameters in effect. -/
inductive Event where
  | radioInit (rn ch pw : Int)
  | send (rn ch pw : Int)
deriving DecidableEq, Repr

/-- The six-entry address table shared by both sketches; index 0 is the
receive/broadcast address, indices 1..5 the TX write addresses. -/
def addresses : List String :=
  ["1Node", "2Node", "3Node", "4Node", "5Node", "6Node"]

/-- The radio-number clamp performed at the top of setupTXRadio:
rn = ((rn > 0) && (rn < 6)) ? rn : 1. -/
def clampRad (rn : Int) : Int :=
  if 0 < rn ∧ rn < 6 then rn else 1

/-- TX setupTXRadio (part_000 lines 808-828): clamp the radio number,
program channel and power level, store the clamped radio number, channel
and power into the node identity globals, and open the write pipe at the
clamped index. Emits the radioInit event. -/
def setupTXRadio (n : TXNode) (rn mychannel pat : Int) : TXNode × Event :=
  let rn2 := clampRad rn
  (⟨{ n.st with radNum := rn2, chNum := mychannel, pwrNum := pat },
    { writePipe := rn2, channel := mychannel, power := pat }⟩,
   Event.radioInit rn2 mychannel pat)

/-- TX get_pong_cmd (part_000 lines 482-506): reload the security globals
from the ping embedded in SentMessage, then read the received pong fields
(the pong copy globals are consumed immediately by get_pong_cmd_RX and
are modelled by reading the pong record directly there). -/
def get_pong_cmd (s : TXState) : TXState :=
  { s with
    myNum  := s.sent.ping.my_cmd,
    chNum  := s.sent.ping.ch_cmd,
    radNum := s.sent.ping.r_cmd,
    pwrNum := s.sent.ping.pa_cmd,
    tarNum := s.sent.ping.tar_cmd,
    almNum := s.sent.ping.alm_cmd,
    dngNum := s.sent.ping.dng_cmd }

/-- TX get_pong_cmd_RX (part_000 lines 435-480): run get_pong_cmd, then,
only when the received channel matches chNum and the received target
matches radNum, dispatch on the received command kind; otherwise leave
the state as get_pong_cmd produced it. Case 0 only re-checks the radio
connection; cases 5 and 6 copy the received target into the outgoing
ping. -/
def get_pong_cmd_RX (s : TXState) (pong : pingCmd) : TXState :=
  let s1 := get_pong_cmd s
  if pong.ch_cmd = s1.chNum ∧ pong.tar_cmd = s1.radNum then
    if pong.my_cmd = 0 then s1
    else if pong.my_cmd = 1 then { s1 with chNum := pong.ch_cmd }
    else if pong.my_cmd = 2 then { s1 with radNum := pong.r_cmd }
    else if pong.my_cmd = 3 then { s1 with pwrNum := pong.pa_cmd }
    else if pong.my_cmd = 4 then
      { s1 with chNum := pong.ch_cmd, radNum := pong.r_cmd, pwrNum := pong.pa_cmd }
    else if pong.my_cmd = 5 then
      { s1 with sent := { s1.sent with ping := { s1.sent.ping with tar_cmd := pong.tar_cmd } } }
    else if pong.my_cmd = 6 then
      { s1 with sent := { s1.sent with ping := { s1.sent.ping with tar_cmd := pong.tar_cmd } } }
    else s1
  else s1

/-- TX pack_sent_msg (part_000 lines 650-670): refresh SentMessage from
the current globals; in particular the embedded ping mirrors the node
identity (ch_cmd = chNum, r_cmd = radNum, pa_cmd = pwrNum). -/
def pack_sent_msg (s : TXState) : TXState :=
  { s with sent :=
    { chNum := s.chNum, radNum := s.radNum, co2_val := s.co2Num,
      h_val := s.hNum, c_val := s.tNum, f_val := s.fNum,
      pir_state := s.pirNum, audio_gate := s.gateNum,
      ping := { my_cmd := s.myNum, ch_cmd := s.chNum, r_cmd := s.radNum,
                pa_cmd := s.pwrNum, tar_cmd := s.tarNum,
                alm_cmd := s.almNum, dng_cmd := s.dngNum } } }

/-- Write-back tail of TX triage_data (part_000 lines 637-640): the folded
maxima are stored into the outgoing ping and the alarm globals. -/
def triage_apply (s : TXState) : TXState :=
  let r := triage_data s.sent
  { s with
    sent := { s.sent with ping := { s.sent.ping with alm_cmd := r.1, dng_cmd := r.2 } },
    almNum := r.1, dngNum := r.2 }

/-- TX transmit_response_to_RX (part_000 lines 785-803) with respFlag set:
pack the outgoing record, triage it, and transmit it with the radio
parameters currently in effect. Emits the send event. -/
def transmit_response_to_RX (n : TXNode) : TXNode × Event :=
  let s2 := triage_apply (pack_sent_msg n.st)
  (⟨s2, n.radio⟩, Event.send n.radio.writePipe n.radio.channel n.radio.power)

/-- TX receive_msg (part_000 lines 415-430), branch where a pong record
has been read: run get_pong_cmd_RX, re-initialise the radio with the
(possibly just-changed) node identity via setupTXRadio, then transmit the
response. Returns the final node and the ordered radio-event trace. The
function is total: a mismatching pong produces no error, only a state. -/
def receive_msg (n : TXNode) (pong : pingCmd) : TXNode × List Event :=
  let s1 := get_pong_cmd_RX n.st pong
  let r2 := setupTXRadio ⟨s1, n.radio⟩ s1.radNum s1.chNum s1.pwrNum
  let r3 := transmit_response_to_RX r2.1
  (r3.1, [r2.2, r3.2])

/-- The node radio identity: (radNum, chNum, pwrNum). -/
def nodeIdent (s : TXState) : Int × Int × Int := (s.radNum, s.chNum, s.pwrNum)

/-- A TX state whose outgoing ping mirrors its identity globals, as
pack_sent_msg establishes before every transmission. -/
abbrev consistent (s : TXState) : Prop :=
  s.sent.ping.ch_cmd = s.chNum ∧ s.sent.ping.r_cmd = s.radNum ∧
  s.sent.ping.pa_cmd = s.pwrNum

/-! ## Master send_ping_cmd -/

/-- Master send_ping_cmd (emacs_RX_Master_03.ino lines 773-795): the
standalone PingRecord constructed for transmission; alm_cmd and dng_cmd
are always set to ALM_NONE (0) and DNG_NONE (0). -/
def send_ping_cmd (cmd ch rn pat target : Int) : pingCmd :=
  { my_cmd := cmd, ch_cmd := ch, r_cmd := rn, pa_cmd := pat,
    tar_cmd := target, alm_cmd := 0, dng_cmd := 0 }

/-! ## Wire format

Modelled from the spec: the byte-level transfer is performed by
radio.write / radio.read of the RF24 library (not part of this
repository); the spec describes it as a fixed-size, field-order-stable
memory-layout reinterpretation of dataStruct with no variable-length
fields. On the AVR targets every field of dataStruct (ints and enums
alike) is a 16-bit little-endian integer, so the block is the 15 fields
serialised in declaration order, two bytes each. -/

/-- Low byte of the 16-bit twos-complement representation. -/
def byte0 (x : Int) : Int := (x % 65536) % 256

/-- High byte of the 16-bit twos-complement representation. -/
def byte1 (x : Int) : Int := (x % 65536) / 256

/-- Modelled from the spec: serialise one 16-bit field, low byte first. -/
def enc16 (x : Int) : List Int := [byte0 x, byte1 x]

/-- Modelled from the spec: read back one 16-bit twos-complement field
from its two bytes. -/
def dec16 (lo hi : Int) : Int :=
  if lo + 256 * hi < 32768 then lo + 256 * hi else lo + 256 * hi - 65536

/-- Modelled from the spec: the fixed 14-byte block of the embedded
pingCmd, fields in declaration order. -/
def encodePing (p : pingCmd) : List Int :=
  enc16 p.my_cmd ++ enc16 p.ch_cmd ++ enc16 p.r_cmd ++ enc16 p.pa_cmd ++
  enc16 p.tar_cmd ++ enc16 p.alm_cmd ++ enc16 p.dng_cmd

/-- Modelled from the spec: the fixed 30-byte block of a dataStruct,
fields in declaration order, the embedded ping last. -/
def encodeData (m : dataStruct) : List Int :=
  enc16 m.chNum ++ enc16 m.radNum ++ enc16 m.co2_val ++ enc16 m.h_val ++
  enc16 m.c_val ++ enc16 m.f_val ++ enc16 m.pir_state ++ enc16 m.audio_gate ++
  encodePing m.ping

/-- Modelled from the spec: rebuild a dataStruct from the fixed-size block
by reading each field at its fixed offset; missing trailing bytes read as
zero (undersized input yields unspecified trailing fields, no error). -/
def decodeData (bs : List Int) : dataStruct :=
  { chNum      := dec16 (bs.getD 0 0) (bs.getD 1 0),
    radNum     := dec16 (bs.getD 2 0) (bs.getD 3 0),
    co2_val    := dec16 (bs.getD 4 0) (bs.getD 5 0),
    h_val      := dec16 (bs.getD 6 0) (bs.getD 7 0),
    c_val      := dec16 (bs.getD 8 0) (bs.getD 9 0),
    f_val      := dec16 (bs.getD 10 0) (bs.getD 11 0),
    pir_state  := dec16 (bs.getD 12 0) (bs.getD 13 0),
    audio_gate := dec16 (bs.getD 14 0) (bs.getD 15 0),
    ping :=
    { my_cmd  := dec16 (bs.getD 16 0) (bs.getD 17 0),
      ch_cmd  := dec16 (bs.getD 18 0) (bs.getD 19 0),
      r_cmd   := dec16 (bs.getD 20 0) (bs.getD 21 0),
      pa_cmd  := dec16 (bs.getD 22 0) (bs.getD 23 0),
      tar_cmd := dec16 (bs.getD 24 0) (bs.getD 25 0),
      alm_cmd := dec16 (bs.getD 26 0) (bs.getD 27 0),
      dng_cmd := dec16 (bs.getD 28 0) (bs.getD 29 0) } }

/-- A value representable in a 16-bit int. -/
abbrev valid16 (x : Int) : Prop := -32768 ≤ x ∧ x < 32768

/-- Every pingCmd field representable in 16 bits. -/
abbrev validPing (p : pingCmd) : Prop :=
  valid16 p.my_cmd ∧ valid16 p.ch_cmd ∧ valid16 p.r_cmd ∧ valid16 p.pa_cmd ∧
  valid16 p.tar_cmd ∧ valid16 p.alm_cmd ∧ valid16 p.dng_cmd

/-- Every dataStruct field representable in 16 bits. -/
abbrev validData (m : dataStruct) : Prop :=
  valid16 m.chNum ∧ valid16 m.radNum ∧ valid16 m.co2_val ∧ valid16 m.h_val ∧
  valid16 m.c_val ∧ valid16 m.f_val ∧ valid16 m.pir_state ∧
  valid16 m.audio_gate ∧ validPing m.ping

lemma dec16_enc16 (x : Int) (h : valid16 x) : dec16 (byte0 x) (byte1 x) = x := by
  unfold dec16 byte0 byte1
  obtain ⟨h1, h2⟩ := h
  split <;> omega

/-! ## Concrete records and states used by the witnesses -/

/-- The all-zero ping sub-record (PongMessage and SentMessage are
zero-initialised at boot). -/
def zeroPing : pingCmd := ⟨0, 0, 0, 0, 0, 0, 0⟩

/-- The all-zero SentMessage record at boot. -/
def zeroData : dataStruct := ⟨0, 0, 0, 0, 0, 0, 0, 0, zeroPing⟩

/-- The TX globals right after setup: initRadioValues(5, 81, PA_MIN) plus
the declared initial environmental values. -/
def initState : TXState :=
  { myNum := 0, tarNum := 0, almNum := 0, dngNum := 0,
    radNum := 5, chNum := 81, pwrNum := 0,
    co2Num := 450, hNum := 40, tNum := 25, fNum := 72,
    pirNum := 0, gateNum := 0, sent := zeroData }

/-- The TX state after its first pack_sent_msg: the outgoing ping mirrors
the node identity, as before every transmission. -/
def readyState : TXState := pack_sent_msg initState

/-- A node holding readyState with the radio programmed to match. -/
def readyNode : TXNode := ⟨readyState, ⟨5, 81, 0⟩⟩

/-- The freshly booted node: identity (5, 81, PA_MIN) but SentMessage
still all-zero, because pack_sent_msg has not run yet while the main
loop already polls receive_msg on every iteration. -/
def initNode : TXNode := ⟨initState, ⟨5, 81, 0⟩⟩

/-- A radio-change pong addressed to channel 81, target 5: it matches the
identity of the booted node (channel 81, radio 5). -/
def pongHit : pingCmd := ⟨2, 81, 2, 0, 5, 0, 0⟩

/-- A quiet reading: every threshold predicate of both classifiers is
false (humidity 40, temperature 25, CO2 100, no motion, no audio). -/
def quietRec : dataStruct :=
  { chNum := 81, radNum := 1, co2_val := 100, h_val := 40, c_val := 25,
    f_val := 77, pir_state := 0, audio_gate := 0, ping := zeroPing }

/-- The quiet reading with temperature exactly 100 degrees C. -/
def rec100 : dataStruct := { quietRec with c_val := 100 }

/-- The quiet reading with CO2 exactly 1700 ppm. -/
def rec1700 : dataStruct := { quietRec with co2_val := 1700 }

/-- A record with every field at an extreme of its type: int fields
alternate between the int16 minimum and maximum, enum fields carry their
highest enumerator. -/
def extremeRec : dataStruct :=
  { chNum := -32768, radNum := 32767, co2_val := -32768, h_val := 32767,
    c_val := -32768, f_val := 32767, pir_state := -32768, audio_gate := 32767,
    ping := { my_cmd := 6, ch_cmd := -32768, r_cmd := 32767, pa_cmd := 3,
              tar_cmd := -32768, alm_cmd := 11, dng_cmd := 4 } }

/-- A pong addressed to channel 76: it fails the guard of a node on
channel 81. -/
def pongMiss : pingCmd := ⟨2, 76, 2, 0, 5, 0, 0⟩

/-! ## Helper lemmas -/

lemma gpc_chNum (s : TXState) : (get_pong_cmd s).chNum = s.sent.ping.ch_cmd := rfl

lemma gpc_radNum (s : TXState) : (get_pong_cmd s).radNum = s.sent.ping.r_cmd := rfl

lemma gpc_ident (s : TXState) (hc : consistent s) :
    nodeIdent (get_pong_cmd s) = nodeIdent s := by
  obtain ⟨h1, h2, h3⟩ := hc
  simp [get_pong_cmd, nodeIdent, h1, h2, h3]

lemma mismatch_ident (s : TXState) (pong : pingCmd) (hc : consistent s)
    (hg : ¬ (pong.ch_cmd = s.chNum ∧ pong.tar_cmd = s.radNum)) :
    nodeIdent (get_pong_cmd_RX s pong) = nodeIdent s := by
  have hg2 : ¬ (pong.ch_cmd = (get_pong_cmd s).chNum ∧
      pong.tar_cmd = (get_pong_cmd s).radNum) := by
    rw [gpc_chNum, gpc_radNum, hc.1, hc.2.1]; exact hg
  simp only [get_pong_cmd_RX, if_neg hg2]
  exact gpc_ident s hc

/-! ## Claim theorems -/

/-- C1: For every ReadingRecord, the alarm triage (Master triage_msg, TX
triage_data) returns the pair obtained by maximizing, by numeric enum
value and separately for each field, the AlarmKind candidates and the
DangerLevel candidates of all firing threshold predicates (ties between
equal values keep the later-evaluated candidate because the accumulation
compares with >=, which cannot change the numeric maximum); if no
predicate fires the result is (ALM_NONE, DNG_NONE) = (0, 0). -/
theorem c1_triage_pairwise_max (m : dataStruct) :
    triage_data m = (maxAlm (firedTX m) 0, maxDng (firedTX m) 0) ∧
    triage_msg m = (maxAlm (firedMaster m) 0, maxDng (firedMaster m) 0) ∧
    (firedTX m = [] → triage_data m = (0, 0)) ∧
    (firedMaster m = [] → triage_msg m = (0, 0)) := by
  have h1 : triage_data m = (maxAlm (firedTX m) 0, maxDng (firedTX m) 0) := by
    simp only [triage_data, firedTX]
    exact foldl_triageStep (candListTX m) (0, 0)
  have h2 : triage_msg m = (maxAlm (firedMaster m) 0, maxDng (firedMaster m) 0) := by
    simp only [triage_msg, firedMaster]
    exact foldl_triageStep (candListMaster m) (0, 0)
  refine ⟨h1, h2, ?_, ?_⟩
  · intro he; rw [h1, he]; simp [maxAlm, maxDng]
  · intro he; rw [h2, he]; simp [maxAlm, maxDng]

theorem c1_witness :
    firedTX quietRec = [] ∧ triage_data quietRec = (0, 0) ∧
    firedMaster quietRec = [] ∧ triage_msg quietRec = (0, 0) :=
  ⟨by decide, (c1_triage_pairwise_max quietRec).2.2.1 (by decide),
   by decide, (c1_triage_pairwise_max quietRec).2.2.2 (by decide)⟩

/-- C2: For every valid ReadingRecord r (every field representable in the
16-bit int of the targets), decoding the fixed-size byte block produced
by encoding r yields a record equal to r; the wire format is the
fixed-size, field-order-stable serialisation of dataStruct with no
variable-length fields. -/
theorem c2_decode_encode (m : dataStruct) (h : validData m) :
    decodeData (encodeData m) = m := by
  obtain ⟨ch, rad, co2, hv, cv, fv, pir, gate, mc, chc, rc, pac, tarc, almc, dngc⟩ := m
  obtain ⟨h1, h2, h3, h4, h5, h6, h7, h8, p1, p2, p3, p4, p5, p6, p7⟩ := h
  simp only [encodeData, encodePing, enc16, List.cons_append, List.nil_append,
    decodeData, List.getD_cons_zero, List.getD_cons_succ,
    dataStruct.mk.injEq, pingCmd.mk.injEq]
  exact ⟨dec16_enc16 _ h1, dec16_enc16 _ h2, dec16_enc16 _ h3, dec16_enc16 _ h4,
    dec16_enc16 _ h5, dec16_enc16 _ h6, dec16_enc16 _ h7, dec16_enc16 _ h8,
    dec16_enc16 _ p1, dec16_enc16 _ p2, dec16_enc16 _ p3, dec16_enc16 _ p4,
    dec16_enc16 _ p5, dec16_enc16 _ p6, dec16_enc16 _ p7⟩

theorem c2_witness :
    validData extremeRec ∧ decodeData (encodeData extremeRec) = extremeRec :=
  ⟨by decide, c2_decode_encode extremeRec (by decide)⟩

/-- C3 counterexample: the claim as stated fails at the boot state. The
booted node has identity (radNum 5, chNum 81, pwrNum 0) but a still-zero
SentMessage, and get_pong_cmd reloads the identity globals from
SentMessage.ping before the guard is evaluated. So a pong addressed to
channel 76 (failing the claimed guard against the node identity)
nevertheless mutates the identity, and the channel-81 target-5
radio-change pong that matches the node identity is not applied (the
radio number stays 0 instead of adopting r_cmd = 2). -/
theorem c3_counterexample :
    (¬ (pongMiss.ch_cmd = initState.chNum ∧ pongMiss.tar_cmd = initState.radNum) ∧
      nodeIdent (get_pong_cmd_RX initState pongMiss) ≠ nodeIdent initState) ∧
    (pongHit.ch_cmd = initState.chNum ∧ pongHit.tar_cmd = initState.radNum ∧
      pongHit.my_cmd = 2 ∧
      (get_pong_cmd_RX initState pongHit).radNum ≠ pongHit.r_cmd) := by decide

/-- C3 amended: for every PingRecord received by a TX node whose outgoing
SentMessage.ping mirrors its identity globals — the state pack_sent_msg
establishes before every transmission, but which does not hold at boot or
straight after a console radio change, because get_pong_cmd reloads the
identity from SentMessage.ping before the guard is evaluated — a
radio-parameter mutation is applied only if the record channel equals the
node channel and the record targetId equals the node radioId; in
particular a PingRecord with channel 81 and targetId 5 carrying a
radio-change command is applied by such a node with channel 81 and
radioId 5, and a ping with targetId 5 is ignored by such a node with
radioId 3. -/
theorem c3_guard_gates_mutation (s : TXState) (pong : pingCmd) (hc : consistent s) :
    (¬ (pong.ch_cmd = s.chNum ∧ pong.tar_cmd = s.radNum) →
      nodeIdent (get_pong_cmd_RX s pong) = nodeIdent s) ∧
    (pong.ch_cmd = 81 ∧ pong.tar_cmd = 5 ∧ pong.my_cmd = 2 ∧
      s.chNum = 81 ∧ s.radNum = 5 →
      (get_pong_cmd_RX s pong).radNum = pong.r_cmd) ∧
    (pong.ch_cmd = 81 ∧ pong.tar_cmd = 5 ∧ s.radNum = 3 →
      nodeIdent (get_pong_cmd_RX s pong) = nodeIdent s) := by
  obtain ⟨h1, h2, h3⟩ := hc
  refine ⟨fun hg => mismatch_ident s pong ⟨h1, h2, h3⟩ hg, ?_, ?_⟩
  · rintro ⟨g1, g2, g3, g4, g5⟩
    have hguard : pong.ch_cmd = (get_pong_cmd s).chNum ∧
        pong.tar_cmd = (get_pong_cmd s).radNum := by
      rw [gpc_chNum, gpc_radNum, h1, h2]; exact ⟨by rw [g1, g4], by rw [g2, g5]⟩
    simp only [get_pong_cmd_RX, if_pos hguard, g3]
    norm_num
  · rintro ⟨g1, g2, g3⟩
    refine mismatch_ident s pong ⟨h1, h2, h3⟩ ?_
    rintro ⟨-, ht⟩
    rw [g2, g3] at ht
    exact absurd ht (by norm_num)

theorem c3_witness :
    consistent readyState ∧
    nodeIdent (get_pong_cmd_RX readyState pongMiss) = nodeIdent readyState :=
  ⟨by decide,
   (c3_guard_gates_mutation readyState pongMiss (by decide)).1 (by decide)⟩

/-- C4 counterexample: at tempC = 100 the claim requires the TempFire
predicate to fire on the Master classifier, but the Master condition is
the strict c_val > 100, so at exactly 100 no TempFire candidate fires and
the triage output alarm is TEMP_HIGH (5), not TEMP_FIRE (11). -/
theorem c4_counterexample :
    (100 ≤ rec100.c_val) ∧ (11, 4) ∉ firedMaster rec100 ∧
    (triage_msg rec100).1 ≠ 11 := by decide

/-- C4 amended: for all tempC values t, the TX classifier fires TempLow
iff t < 20, TempHigh iff 40 <= t < 100, TempFire iff t >= 100, and no
temperature alarm when 20 <= t < 40; the Master classifier fires TempLow
iff t < 20 but TempHigh iff t > 40 and TempFire iff t > 100 (strict
comparisons, no upper bound on TempHigh), so it fires no temperature
alarm when 20 <= t <= 40. -/
theorem c4_temp_boundaries (m : dataStruct) :
    ((3, 1) ∈ firedTX m ↔ m.c_val < 20) ∧
    ((5, 3) ∈ firedTX m ↔ 40 ≤ m.c_val ∧ m.c_val < 100) ∧
    ((11, 4) ∈ firedTX m ↔ 100 ≤ m.c_val) ∧
    (20 ≤ m.c_val ∧ m.c_val < 40 →
      (3, 1) ∉ firedTX m ∧ (5, 3) ∉ firedTX m ∧ (11, 4) ∉ firedTX m) ∧
    ((3, 1) ∈ firedMaster m ↔ m.c_val < 20) ∧
    ((5, 3) ∈ firedMaster m ↔ 40 < m.c_val) ∧
    ((11, 4) ∈ firedMaster m ↔ 100 < m.c_val) ∧
    (20 ≤ m.c_val ∧ m.c_val ≤ 40 →
      (3, 1) ∉ firedMaster m ∧ (5, 3) ∉ firedMaster m ∧ (11, 4) ∉ firedMaster m) := by
  refine ⟨?_, ?_, ?_, ?_, ?_, ?_, ?_, ?_⟩ <;>
    simp [firedTX, firedMaster, fired, candListTX, candListMaster, List.mem_map,
      List.mem_filter, decide_eq_true_iff, Prod.mk.injEq] <;>
    omega

theorem c4_witness :
    (20 ≤ quietRec.c_val ∧ quietRec.c_val < 40) ∧
    ((3, 1) ∉ firedTX quietRec ∧ (5, 3) ∉ firedTX quietRec ∧
      (11, 4) ∉ firedTX quietRec) :=
  ⟨by decide, (c4_temp_boundaries quietRec).2.2.2.1 (by decide)⟩

/-- C5: For any record with co2 = 1700, the TX classifier fires neither
the Co2Good candidate (7, 0) nor the Co2High candidate (6, 3), because
1700 lies in the gap between the TX good band 400..1600 and high band
1800..2999, while the Master classifier fires Co2Good, whose band is
400 <= co2 < 2000. -/
theorem c5_co2_gap (m : dataStruct) (h : m.co2_val = 1700) :
    ((7, 0) ∉ firedTX m ∧ (6, 3) ∉ firedTX m) ∧ (7, 0) ∈ firedMaster m := by
  refine ⟨⟨?_, ?_⟩, ?_⟩ <;>
    simp [firedTX, firedMaster, fired, candListTX, candListMaster, List.mem_map,
      List.mem_filter, decide_eq_true_iff, Prod.mk.injEq, h] <;>
    omega

theorem c5_witness :
    rec1700.co2_val = 1700 ∧
    ((7, 0) ∉ firedTX rec1700 ∧ (6, 3) ∉ firedTX rec1700) ∧
    (7, 0) ∈ firedMaster rec1700 :=
  ⟨rfl, (c5_co2_gap rec1700 rfl).1, (c5_co2_gap rec1700 rfl).2⟩

/-- C6: For all humidity values h, both classifiers fire HumidityLow iff
h < 10 and HumidityHigh iff h >= 85, and fire no humidity alarm when
10 <= h < 85. -/
theorem c6_humidity_boundaries (m : dataStruct) :
    ((1, 0) ∈ firedTX m ↔ m.h_val < 10) ∧
    ((2, 1) ∈ firedTX m ↔ 85 ≤ m.h_val) ∧
    ((1, 0) ∈ firedMaster m ↔ m.h_val < 10) ∧
    ((2, 1) ∈ firedMaster m ↔ 85 ≤ m.h_val) ∧
    (10 ≤ m.h_val ∧ m.h_val < 85 →
      (1, 0) ∉ firedTX m ∧ (2, 1) ∉ firedTX m ∧
      (1, 0) ∉ firedMaster m ∧ (2, 1) ∉ firedMaster m) := by
  refine ⟨?_, ?_, ?_, ?_, ?_⟩ <;>
    simp [firedTX, firedMaster, fired, candListTX, candListMaster, List.mem_map,
      List.mem_filter, decide_eq_true_iff, Prod.mk.injEq] <;>
    omega

theorem c6_witness :
    (10 ≤ quietRec.h_val ∧ quietRec.h_val < 85) ∧
    ((1, 0) ∉ firedTX quietRec ∧ (2, 1) ∉ firedTX quietRec ∧
      (1, 0) ∉ firedMaster quietRec ∧ (2, 1) ∉ firedMaster quietRec) :=
  ⟨by decide, (c6_humidity_boundaries quietRec).2.2.2.2 (by decide)⟩

/-- C7 counterexample: the claim as stated fails at the boot state. The
booted node (identity (5, 81, 0), SentMessage still zero) receives a pong
addressed to channel 76, which fails the guard; yet after the full
receive cycle the identity is (1, 0, 0), not (5, 81, 0): get_pong_cmd
reloaded the identity from the zero SentMessage.ping and setupTXRadio
clamped the radio number 0 to 1. -/
theorem c7_counterexample :
    ¬ (pongMiss.ch_cmd = initNode.st.chNum ∧
       pongMiss.tar_cmd = initNode.st.radNum) ∧
    nodeIdent (receive_msg initNode pongMiss).1.st ≠ nodeIdent initNode.st := by
  decide

/-- C7 amended: for every received PingRecord that fails the Command
Negotiator guard, the record is silently ignored in the sense that
receive_msg is a total function and no error value is produced; and on a
node whose outgoing SentMessage.ping mirrors its identity (the state
established by pack_sent_msg before every transmission, though not at
boot or straight after a console radio change) and whose radio number is
in 1..5, the node identity (radNum, chNum, pwrNum) after the whole
receive cycle equals its value before the receive. -/
theorem c7_mismatch_silent (n : TXNode) (pong : pingCmd) (hc : consistent n.st)
    (hlo : 1 ≤ n.st.radNum) (hhi : n.st.radNum ≤ 5)
    (hg : ¬ (pong.ch_cmd = n.st.chNum ∧ pong.tar_cmd = n.st.radNum)) :
    nodeIdent (receive_msg n pong).1.st = nodeIdent n.st := by
  have hi := mismatch_ident n.st pong hc hg
  rw [nodeIdent, nodeIdent, Prod.mk.injEq, Prod.mk.injEq] at hi
  obtain ⟨hr, hch, hpw⟩ := hi
  simp only [receive_msg, setupTXRadio, transmit_response_to_RX, triage_apply,
    pack_sent_msg, nodeIdent, clampRad]
  rw [hr, hch, hpw]
  rw [if_pos ⟨by omega, by omega⟩]

theorem c7_witness :
    (consistent readyNode.st ∧ 1 ≤ readyNode.st.radNum ∧
      readyNode.st.radNum ≤ 5 ∧
      ¬ (pongMiss.ch_cmd = readyNode.st.chNum ∧
         pongMiss.tar_cmd = readyNode.st.radNum)) ∧
    nodeIdent (receive_msg readyNode pongMiss).1.st = nodeIdent readyNode.st :=
  ⟨⟨by decide, by decide, by decide, by decide⟩,
   c7_mismatch_silent readyNode pongMiss (by decide) (by decide) (by decide)
     (by decide)⟩

/-- C8: On every receipt of a PingRecord by a TX node, the radio-event
trace of receive_msg is exactly a radio re-initialisation followed by the
acknowledge transmission, and both events carry the node identity of the
final state: the radio is re-initialised with the (possibly just-changed)
identity after command dispatch and before the reply, so the reply is
never transmitted on stale radio parameters. -/
theorem c8_reinit_before_reply (n : TXNode) (pong : pingCmd) :
    (receive_msg n pong).2 =
      [Event.radioInit (receive_msg n pong).1.st.radNum
        (receive_msg n pong).1.st.chNum (receive_msg n pong).1.st.pwrNum,
       Event.send (receive_msg n pong).1.st.radNum
        (receive_msg n pong).1.st.chNum (receive_msg n pong).1.st.pwrNum] := by
  simp [receive_msg, setupTXRadio, transmit_response_to_RX, triage_apply,
    pack_sent_msg]

/-- C9: Every standalone PingRecord constructed by the Master in
send_ping_cmd, for any commandKind, channel, radio number, power and
target arguments, carries alm_cmd = ALM_NONE (0) and dng_cmd = DNG_NONE
(0): the alarm and danger fields are never hand-set to any other value
there. -/
theorem c9_ping_alarm_none (cmd ch rn pat target : Int) :
    (send_ping_cmd cmd ch rn pat target).alm_cmd = 0 ∧
    (send_ping_cmd cmd ch rn pat target).dng_cmd = 0 :=
  ⟨rfl, rfl⟩

/-- C10: For every call setupTXRadio(rn, channel, power) on a TX node,
the stored radio number is rn clamped into 1..5 (rn outside 0 < rn < 6
is replaced by 1), so after every setup radNum lies in 1..5, the write
pipe equals radNum, and the write-pipe address lookup index is always
within the 6-entry address table. -/
theorem c10_setup_clamps_radNum (n : TXNode) (rn ch pw : Int) :
    1 ≤ (setupTXRadio n rn ch pw).1.st.radNum ∧
    (setupTXRadio n rn ch pw).1.st.radNum ≤ 5 ∧
    ((setupTXRadio n rn ch pw).1.st.radNum).toNat < addresses.length ∧
    (setupTXRadio n rn ch pw).1.radio.writePipe =
      (setupTXRadio n rn ch pw).1.st.radNum ∧
    (¬ (0 < rn ∧ rn < 6) → (setupTXRadio n rn ch pw).1.st.radNum = 1) := by
  by_cases h : 0 < rn ∧ rn < 6 <;>
    simp [setupTXRadio, clampRad, h, addresses] <;>
    omega

theorem c10_witness :
    ¬ (0 < (9 : Int) ∧ (9 : Int) < 6) ∧
    (setupTXRadio readyNode 9 81 0).1.st.radNum = 1 :=
  ⟨by decide, (c10_setup_clamps_radNum readyNode 9 81 0).2.2.2.2 (by decide)⟩

end Emacs
